import Mathlib

/-!
# Verification of the JESD204B bring-up logic of `axau15_adc08dj5200rf.py`

Shallow embedding of the original control logic of the HectaScope board
support file: the lane remapping tables, the all-lanes-ready barrier that
gates the `jesd` clock-domain reset, the per-lane PHY polarity
configuration, the link-status aggregation, and the `main` build driver's
defaults.  Python integers are modelled as `Nat`, Python booleans as
`Bool`, the `assert` and fallible lookups as `Option`/`Except`.
-/

namespace HectaScope

/-! ## Lane remapping tables (source lines 218-223)

The source selects, per `jesd_lanes`, the physical-to-logical lane order
and the per-physical-lane rx polarity flags (0/1 integers):

    if jesd_lanes == 4:
        adc08dj_phy_rx_order    = [3, 0, 2, 1]
        adc08dj_phy_rx_polarity = [0, 0, 0, 0]
    if jesd_lanes == 8:
        adc08dj_phy_rx_order    = [3, 0, 2, 1, 7, 4, 6, 5]
        adc08dj_phy_rx_polarity = [0, 0, 0, 0, 1, 1, 1, 1]

No other `jesd_lanes` value reaches this point (line 178 asserts
`jesd_lanes in [4, 8]`); an unmatched value is modelled as `none`. -/

def adc08dj_phy_rx_tables (jesd_lanes : Nat) : Option (List Nat × List Nat) :=
  if jesd_lanes = 4 then
    some ([3, 0, 2, 1], [0, 0, 0, 0])
  else if jesd_lanes = 8 then
    some ([3, 0, 2, 1, 7, 4, 6, 5], [0, 0, 0, 0, 1, 1, 1, 1])
  else
    none

/-- A 0/1 integer polarity flag read as a boolean (nonzero means inverted). -/
def polBool (p : Nat) : Bool := p != 0

/-- The spec-facing remap lookup: same data as `adc08dj_phy_rx_tables`, the
polarity column read as booleans. -/
def remap (lane_count : Nat) : Option (List Nat × List Bool) :=
  (adc08dj_phy_rx_tables lane_count).map (fun t => (t.1, t.2.map polBool))

/-! ## Setup-time lane-count check (source line 178)

`BaseSoC.__init__` begins with `assert jesd_lanes in [4, 8]`; construction
of the SoC proceeds to the table selection only when the assert passes. -/

def baseSoC_setup (jesd_lanes : Nat) : Except String (List Nat × List Nat) :=
  if jesd_lanes ∈ [4, 8] then
    match adc08dj_phy_rx_tables jesd_lanes with
    | some t => Except.ok t
    | none   => Except.error "unreachable: no table for asserted lane count"
  else
    Except.error "AssertionError: jesd_lanes in [4, 8]"

/-! ## Per-lane PHY configuration (source lines 283-296)

Each physical lane `i` in `range(jesd_lanes)` instantiates a `GTH4` PHY
with fixed parameters; only `rx_polarity` varies per lane, read from
`adc08dj_phy_rx_polarity[i]`.  Line 296 tags the PHY with its physical
index (`jesd_phy.n = i`), so a PHY is identified by that index here. -/

structure GTH4Config where
  data_width : Nat
  clock_aligner : Bool
  tx_buffer_enable : Bool
  rx_buffer_enable : Bool
  tx_polarity : Nat
  rx_polarity : Nat

def jesd_phy_config (jesd_lanes i : Nat) : Option GTH4Config := do
  let t ← adc08dj_phy_rx_tables jesd_lanes
  let p ← t.2[i]?
  pure { data_width := 40
         clock_aligner := false
         tx_buffer_enable := true
         rx_buffer_enable := true
         tx_polarity := 0
         rx_polarity := p }

/-- The list of PHYs, each denoted by its physical lane index
(`jesd_phys`, built by the loop at lines 283-305). -/
def jesd_phys (jesd_lanes : Nat) : List Nat := List.range jesd_lanes

/-- Line 311: `jesd_phys_rx = [jesd_phys[n] for n in adc08dj_phy_rx_order]`,
the lane list handed to `LiteJESD204BCoreRX`. -/
def jesd_phys_rx (jesd_lanes : Nat) : Option (List Nat) := do
  let t ← adc08dj_phy_rx_tables jesd_lanes
  t.1.mapM (fun n => (jesd_phys jesd_lanes)[n]?)

/-- The rx polarity configured for the PHY that feeds logical position `k`
of the rx core: that PHY is `order[k]`, whose `rx_polarity` was set to
`adc08dj_phy_rx_polarity[order[k]]` at creation (line 292). -/
def logical_lane_rx_polarity (jesd_lanes k : Nat) : Option Nat := do
  let t ← adc08dj_phy_rx_tables jesd_lanes
  let phy ← t.1[k]?
  t.2[phy]?

/-! ## The all-lanes-ready barrier (source lines 307-309)

    jesd_phys_tx_init_done = reduce(and_, [phy.tx_init.done for phy in jesd_phys])
    jesd_phys_rx_init_done = reduce(and_, [phy.rx_init.done for phy in jesd_phys])
    self.specials += AsyncResetSynchronizer(self.cd_jesd,
        ~(jesd_phys_tx_init_done & jesd_phys_rx_init_done))

`reduce` folds the binary AND over a nonempty list (it raises on an empty
one, modelled as `none`). -/

def reduceAnd : List Bool → Option Bool
  | [] => none
  | x :: xs => some (xs.foldl (fun a b => a && b) x)

def jesd_phys_tx_init_done (jesd_lanes : Nat) (tx_done : Nat → Bool) : Option Bool :=
  reduceAnd ((jesd_phys jesd_lanes).map tx_done)

def jesd_phys_rx_init_done (jesd_lanes : Nat) (rx_done : Nat → Bool) : Option Bool :=
  reduceAnd ((jesd_phys jesd_lanes).map rx_done)

/-- The composite all-ready condition, the code's form:
`jesd_phys_tx_init_done & jesd_phys_rx_init_done`. -/
def all_ready (jesd_lanes : Nat) (tx_done rx_done : Nat → Bool) : Option Bool := do
  let t ← jesd_phys_tx_init_done jesd_lanes tx_done
  let r ← jesd_phys_rx_init_done jesd_lanes rx_done
  pure (t && r)

/-- The signal wired into the `AsyncResetSynchronizer` on `cd_jesd`
(line 309): the negation of the composite all-ready condition. -/
def cd_jesd_rst_input (jesd_lanes : Nat) (tx_done rx_done : Nat → Bool) : Option Bool := do
  let t ← jesd_phys_tx_init_done jesd_lanes tx_done
  let r ← jesd_phys_rx_init_done jesd_lanes rx_done
  pure (!(t && r))

/-- The two states of the dependent `jesd` clock domain. -/
inductive DomainState where
  | HELD_RESET
  | ACTIVE
deriving DecidableEq

/-- Modelled from the spec: `AsyncResetSynchronizer` (a migen library
primitive, not part of this repository) holds the attached clock domain in
reset while its input is asserted and releases the reset while it is
deasserted; the domain's next state therefore depends only on the current
reset input, never on the previous state. -/
def domainStep (_s : DomainState) (rst : Bool) : DomainState :=
  if rst then DomainState.HELD_RESET else DomainState.ACTIVE

/-! ## Link status (source lines 324-327)

    self.comb += self.jesd_link_status.eq(
        (self.jesd_rx_core.enable & self.jesd_rx_core.jsync) &
        (self.jesd_rx_core.enable & self.jesd_rx_core.jsync))
-/

def jesd_link_status (enable jsync : Bool) : Bool :=
  (enable && jsync) && (enable && jsync)

/-! ## Constructor defaults and the build driver (source lines 170-178, 351-362)

`BaseSoC.__init__` defaults: `jesd_lanes=4`, `jesd_framing=True`,
`jesd_scrambling=True`, `jesd_stpl_random=False`.  `main()` parses only
`--build`, `--load`, `--sys-clk-freq` and `--driver`, and constructs
`BaseSoC(sys_clk_freq=args.sys_clk_freq)`, leaving every other argument at
its default. -/

structure BaseSoCArgs where
  sys_clk_freq : Nat
  with_led_chaser : Bool := true
  with_pcie : Bool := false
  jesd_lanes : Nat := 4
  jesd_framing : Bool := true
  jesd_scrambling : Bool := true
  jesd_stpl_random : Bool := false

/-- The argument record with which `main()` constructs `BaseSoC`: only
`sys_clk_freq` is supplied, all other arguments keep their defaults. -/
def main_soc (sys_clk_freq : Nat) : BaseSoCArgs :=
  { sys_clk_freq := sys_clk_freq }

/-! ## Helper lemmas -/

theorem foldl_and_eq_all (x : Bool) (xs : List Bool) :
    xs.foldl (fun a b => a && b) x = (x && xs.all id) := by
  induction xs generalizing x with
  | nil => simp
  | cons y ys ih => simp [List.foldl, ih, Bool.and_assoc]

theorem reduceAnd_eq_all (l : List Bool) (h : l ≠ []) :
    reduceAnd l = some (l.all id) := by
  cases l with
  | nil => exact absurd rfl h
  | cons x xs => simp [reduceAnd, foldl_and_eq_all]

theorem all_map_id {α : Type} (l : List α) (f : α → Bool) :
    (l.map f).all id = l.all f := by
  induction l with
  | nil => rfl
  | cons x xs ih => simp [List.all_cons, ih]

theorem reduceAnd_map_range (N : Nat) (h : 0 < N) (f : Nat → Bool) :
    reduceAnd ((List.range N).map f) = some ((List.range N).all f) := by
  rw [reduceAnd_eq_all]
  · rw [all_map_id]
  · simp [List.map_eq_nil_iff, List.range_eq_nil]
    omega

theorem all_ready_eq (N : Nat) (h : 0 < N) (tx rx : Nat → Bool) :
    all_ready N tx rx = some ((List.range N).all tx && (List.range N).all rx) := by
  simp [all_ready, jesd_phys_tx_init_done, jesd_phys_rx_init_done, jesd_phys,
    reduceAnd_map_range N h]

theorem cd_jesd_rst_input_eq (N : Nat) (h : 0 < N) (tx rx : Nat → Bool) :
    cd_jesd_rst_input N tx rx
      = some (!((List.range N).all tx && (List.range N).all rx)) := by
  simp [cd_jesd_rst_input, jesd_phys_tx_init_done, jesd_phys_rx_init_done, jesd_phys,
    reduceAnd_map_range N h]

theorem range_all_iff (N : Nat) (f : Nat → Bool) :
    (List.range N).all f = true ↔ ∀ i, i < N → f i = true := by
  simp [List.all_eq_true, List.mem_range]

/-! ## Claim theorems -/

/-- Claim C1: for every lane count `N` in `{4, 8}`, the code's barrier form
`(AND over lanes of tx_done) AND (AND over lanes of rx_done)` is true iff
every lane `i < N` has both `tx_done i` and `rx_done i` true (a strict AND
over all lanes, not a threshold). -/
theorem all_ready_iff_every_lane_done (N : Nat) (hN : N = 4 ∨ N = 8)
    (tx rx : Nat → Bool) :
    all_ready N tx rx = some true
      ↔ ∀ i, i < N → (tx i = true ∧ rx i = true) := by
  have h0 : 0 < N := by rcases hN with h | h <;> omega
  rw [all_ready_eq N h0]
  simp only [Option.some.injEq, Bool.and_eq_true, range_all_iff]
  constructor
  · rintro ⟨h1, h2⟩ i hi
    exact ⟨h1 i hi, h2 i hi⟩
  · intro h
    exact ⟨fun i hi => (h i hi).1, fun i hi => (h i hi).2⟩

/-- Witness for C1: with `N = 8`, lanes 0-3 fully done and lanes 4-7 not
done, the barrier is not true. -/
theorem all_ready_iff_every_lane_done_witness :
    ¬ (all_ready 8 (fun i => decide (i < 4)) (fun _ => true) = some true) := by
  intro hc
  have h := (all_ready_iff_every_lane_done 8 (Or.inr rfl)
    (fun i => decide (i < 4)) (fun _ => true)).mp hc 4 (by omega)
  simp at h

/-- Claim C2: the `jesd` clock domain behaves as a two-state machine: the
reset input wired into its synchronizer is the negation of `all_ready`, so
the domain is `HELD_RESET` exactly when `all_ready` is false and `ACTIVE`
exactly when it is true, the next state being independent of the current
state (re-entrant, never latched). -/
theorem jesd_domain_two_state (N : Nat) (hN : N = 4 ∨ N = 8)
    (tx rx : Nat → Bool) (s : DomainState) :
    ∃ rst ready,
      cd_jesd_rst_input N tx rx = some rst ∧
      all_ready N tx rx = some ready ∧
      rst = !ready ∧
      domainStep s rst
        = (if ready then DomainState.ACTIVE else DomainState.HELD_RESET) ∧
      (∀ s', domainStep s' rst = domainStep s rst) := by
  have h0 : 0 < N := by rcases hN with h | h <;> omega
  refine ⟨_, _, cd_jesd_rst_input_eq N h0 tx rx, all_ready_eq N h0 tx rx, rfl, ?_, ?_⟩
  · cases (List.range N).all tx && (List.range N).all rx <;> simp [domainStep]
  · intro s'
    rfl

/-- Witness for C2: instantiated at `N = 4` with every lane done and the
domain currently in `HELD_RESET`. -/
theorem jesd_domain_two_state_witness :
    ∃ rst ready,
      cd_jesd_rst_input 4 (fun _ => true) (fun _ => true) = some rst ∧
      all_ready 4 (fun _ => true) (fun _ => true) = some ready ∧
      rst = !ready ∧
      domainStep DomainState.HELD_RESET rst
        = (if ready then DomainState.ACTIVE else DomainState.HELD_RESET) ∧
      (∀ s', domainStep s' rst = domainStep DomainState.HELD_RESET rst) :=
  jesd_domain_two_state 4 (Or.inl rfl) (fun _ => true) (fun _ => true)
    DomainState.HELD_RESET

/-- Claim C3: the remap lookup returns exactly the specified constants for
its two defined inputs. -/
theorem remap_constants :
    remap 4 = some ([3, 0, 2, 1], [false, false, false, false]) ∧
    remap 8 = some ([3, 0, 2, 1, 7, 4, 6, 5],
                    [false, false, false, false, true, true, true, true]) := by
  constructor <;> rfl

/-- Claim C4: for `N` in `{4, 8}` and every logical position `k < N`,
logical lane `k` of the rx core (position `k` of `jesd_phys_rx`) is the
PHY with physical index `order[k]`. -/
theorem jesd_phys_rx_feeds_order (N : Nat) (hN : N = 4 ∨ N = 8)
    (k : Nat) (hk : k < N) :
    (jesd_phys_rx N).bind (fun l => l[k]?)
      = (adc08dj_phy_rx_tables N).bind (fun t => t.1[k]?) := by
  rcases hN with h | h <;> subst h <;> revert k hk <;> decide

/-- Witness for C4: with `N = 4`, logical position 0 is fed by physical
lane 3 (the value of `order[0]`). -/
theorem jesd_phys_rx_feeds_order_witness :
    (jesd_phys_rx 4).bind (fun l => l[0]?)
      = (adc08dj_phy_rx_tables 4).bind (fun t => t.1[0]?) :=
  jesd_phys_rx_feeds_order 4 (Or.inl rfl) 0 (by decide)

/-- Claim C5: for `N` in `{4, 8}` and every logical position `k < N`, the
rx polarity configured on the PHY feeding logical lane `k` (namely
`polarity[order[k]]`, set at PHY creation before the remap) equals the
remap table's `polarity[k]`, so the signal is inverted iff `polarity[k]`
is true. -/
theorem logical_lane_polarity_matches_table (N : Nat) (hN : N = 4 ∨ N = 8)
    (k : Nat) (hk : k < N) :
    (logical_lane_rx_polarity N k).map polBool
      = (remap N).bind (fun t => t.2[k]?) := by
  rcases hN with h | h <;> subst h <;> revert k hk <;> decide

/-- Witness for C5: with `N = 8`, logical position 4 is fed by physical
lane 7, whose configured polarity (inverted) equals `polarity[4]`. -/
theorem logical_lane_polarity_matches_table_witness :
    (logical_lane_rx_polarity 8 4).map polBool
      = (remap 8).bind (fun t => t.2[4]?) :=
  logical_lane_polarity_matches_table 8 (Or.inr rfl) 4 (by decide)

/-- Claim C6: for all four boolean combinations of the inputs, the code's
`(enable AND jsync) AND (enable AND jsync)` equals the plain conjunction
`enable AND jsync` (idempotence of AND, no state). -/
theorem jesd_link_status_eq_and (enable jsync : Bool) :
    jesd_link_status enable jsync = (enable && jsync) := by
  cases enable <;> cases jsync <;> rfl

/-- Claim C7: for every lane count outside `{4, 8}` the setup fails with a
configuration error (the assert at line 178, no fallback table), while for
lane counts 4 and 8 setup succeeds past this check. -/
theorem baseSoC_setup_lane_check (n : Nat) :
    (n ≠ 4 ∧ n ≠ 8 → ∃ e, baseSoC_setup n = Except.error e) ∧
    ((n = 4 ∨ n = 8) → ∃ t, baseSoC_setup n = Except.ok t) := by
  constructor
  · rintro ⟨h4, h8⟩
    have hc : ¬ (n ∈ [4, 8]) := by simp [h4, h8]
    refine ⟨"AssertionError: jesd_lanes in [4, 8]", ?_⟩
    unfold baseSoC_setup
    rw [if_neg hc]
  · rintro (h | h) <;> subst h
    · exact ⟨([3, 0, 2, 1], [0, 0, 0, 0]), rfl⟩
    · exact ⟨([3, 0, 2, 1, 7, 4, 6, 5], [0, 0, 0, 0, 1, 1, 1, 1]), rfl⟩

/-- Witness for C7: lane count 5 is rejected and lane count 4 passes. -/
theorem baseSoC_setup_lane_check_witness :
    (∃ e, baseSoC_setup 5 = Except.error e) ∧
    (∃ t, baseSoC_setup 4 = Except.ok t) :=
  ⟨(baseSoC_setup_lane_check 5).1 (by decide),
   (baseSoC_setup_lane_check 4).2 (Or.inl rfl)⟩

/-- Claim C8: for both defined lane counts, the order and polarity
sequences each have length `N` and the order sequence is a permutation of
`0..N-1`. -/
theorem remap_tables_length_perm (N : Nat) (hN : N = 4 ∨ N = 8) :
    ∃ t, remap N = some t ∧ t.1.length = N ∧ t.2.length = N ∧
      t.1.Perm (List.range N) := by
  rcases hN with h | h <;> subst h
  · exact ⟨([3, 0, 2, 1], [false, false, false, false]), rfl, rfl, rfl, by decide⟩
  · exact ⟨([3, 0, 2, 1, 7, 4, 6, 5],
            [false, false, false, false, true, true, true, true]),
      rfl, rfl, rfl, by decide⟩

/-- Witness for C8: instantiated at lane count 4. -/
theorem remap_tables_length_perm_witness :
    ∃ t, remap 4 = some t ∧ t.1.length = 4 ∧ t.2.length = 4 ∧
      t.1.Perm (List.range 4) :=
  remap_tables_length_perm 4 (Or.inl rfl)

/-- Claim C9: every lane's PHY is created with `tx_polarity = 0` (the
transmit direction is never inverted); the table's polarity flags reach
only the `rx_polarity` parameter. -/
theorem tx_polarity_never_inverted (N : Nat) (hN : N = 4 ∨ N = 8)
    (i : Nat) (hi : i < N) :
    (jesd_phy_config N i).map GTH4Config.tx_polarity = some 0 ∧
    (jesd_phy_config N i).map GTH4Config.rx_polarity
      = (adc08dj_phy_rx_tables N).bind (fun t => t.2[i]?) := by
  rcases hN with h | h <;> subst h <;> revert i hi <;> decide

/-- Witness for C9: lane 5 at `N = 8` has `tx_polarity = 0` even though
its rx polarity flag is set. -/
theorem tx_polarity_never_inverted_witness :
    (jesd_phy_config 8 5).map GTH4Config.tx_polarity = some 0 ∧
    (jesd_phy_config 8 5).map GTH4Config.rx_polarity
      = (adc08dj_phy_rx_tables 8).bind (fun t => t.2[5]?) :=
  tx_polarity_never_inverted 8 (Or.inr rfl) 5 (by decide)

/-- Claim C10: `BaseSoC`'s defaults are `jesd_lanes = 4` with framing and
scrambling enabled and stpl_random disabled, and `main()` constructs
`BaseSoC` passing only `sys_clk_freq`, so a CLI build always selects the
4-lane remap table, never the 8-lane one. -/
theorem main_always_uses_defaults (f : Nat) :
    (main_soc f).jesd_lanes = 4 ∧
    (main_soc f).jesd_framing = true ∧
    (main_soc f).jesd_scrambling = true ∧
    (main_soc f).jesd_stpl_random = false ∧
    remap (main_soc f).jesd_lanes
      = some ([3, 0, 2, 1], [false, false, false, false]) :=
  ⟨rfl, rfl, rfl, rfl, rfl⟩

end HectaScope
